import Mathlib

/-!
Verification development for the QA-compliance warehouse/ALM synchronizer.

The development shallowly embeds the three modules the specification's
testable properties talk about:

* `backend/test.py` — the Compliance-to-Defect Materializer
  (`process_compliance_for_requirement`, `make_issue_after_compliance`,
  the threshold constant, and the pydantic `ComplianceResult` validation
  from `backend/core/data_models.py`);
* `cloud_functions/jira_to_bigquery/main.py` — the inbound upsert
  (`handle_issue_sync`, a BigQuery MERGE keyed on the remote issue key);
* `cloud_functions/bigquery_to_jira/main.py` — the outbound remote
  reference lifecycle (`create_or_update_requirement_in_jira`,
  `create_alm_defect`, `update_defect_in_jira`, `create_defect_in_jira`,
  `link_issues`).

Modelling conventions:

* Python floats carrying compliance scores become `ℚ`; all the score
  literals and comparisons in the source (`0.7`, `0.6999`, `<`) behave
  identically on these rationals.
* Fallible Python code becomes `Except PyError`.  The materializer
  accumulates its rows in local lists and only issues the BigQuery batch
  inserts after the loop finishes, so an exception mid-loop persists
  nothing; accordingly an `Except.error` result carries no rows at all.
* Generated identifiers (uuid4 issue ids, `ts` timestamps) are opaque to
  every property below and are omitted from the row records; the
  webhook `sync_timestamp` (which does matter for the upsert) is passed
  in as an explicit parameter.
* ALM issue keys are modelled as `Nat`: the tracker assigns fresh keys
  from a counter, which captures exactly the "remote-assigned key"
  behaviour the lifecycle relies on.
-/

/-- Exceptions the embedded Python code can raise: `IndexError` from
`regulatory_tags[0]` on an empty list, `RuntimeError` re-raised by
`run_rag_compliance` on a collaborator failure, pydantic's
`ValidationError` from constructing `ComplianceResult`, and `TypeError`
from comparing `None < 0.7`. -/
inductive PyError where
  | indexError
  | runtimeError
  | validationError
  | typeError
deriving Repr, DecidableEq

deriving instance DecidableEq for Except

/-- The raw dictionary `run_rag_compliance` hands back (first element of
the API's `results`, or the fallback dictionary): both `compliance_score`
and `compliance_status` may be `None`. -/
structure RagRaw where
  compliance_score : Option ℚ
  compliance_status : Option String
  recommendations : List String
  violations : List String
  regulatory_citations : List String
deriving Repr, DecidableEq

/-- One fetched `TestCase` row (`test_id`, opaque `testcase_details`). -/
structure TestCaseRow where
  test_id : String
  testcase_details : String
deriving Repr, DecidableEq

/-- The Generation collaborator as the materializer sees it:
`run_rag_compliance(testcase, tag)` either returns a raw result
dictionary or raises `RuntimeError` (it wraps any
`requests.RequestException` that way). -/
def RagCall : Type := TestCaseRow → Except Unit RagRaw

/-- `ComplianceResult` from `backend/core/data_models.py` after pydantic
validation: `compliance_score : Optional[float]`, `compliance_status : str`
(required, non-None). -/
structure ComplianceResult where
  test_case_id : String
  regulation : String
  compliance_score : Option ℚ
  compliance_status : String
  recommendations : List String
  violations : List String
  regulatory_citations : List String
deriving Repr, DecidableEq

/-- Pydantic construction of `ComplianceResult`: a `None`
`compliance_status` fails the `str` field validation (the
`infer_status_from_score` after-validator never runs in that case), and a
present score must satisfy `ge=0.0, le=1.0`.  A `None` score passes
validation. -/
def mkComplianceResult (test_id tag : String) (raw : RagRaw) :
    Except PyError ComplianceResult :=
  match raw.compliance_status with
  | none => .error .validationError
  | some st =>
    match raw.compliance_score with
    | none =>
      .ok ⟨test_id, tag, none, st, raw.recommendations, raw.violations,
           raw.regulatory_citations⟩
    | some s =>
      if 0 ≤ s ∧ s ≤ 1 then
        .ok ⟨test_id, tag, some s, st, raw.recommendations, raw.violations,
             raw.regulatory_citations⟩
      else .error .validationError

/-- `threshold_compliance_score = 0.7` in `backend/test.py`
(`mkRat 7 10 = 0.7`, written so that concrete runs evaluate by `decide`). -/
def threshold_compliance_score : ℚ := mkRat 7 10

/-- A row appended to `rows_to_insert` for the Compliance table. -/
structure ComplianceRow where
  test_id : String
  req_id : String
  regulatory_tag : String
  compliance_result : ComplianceResult
deriving Repr, DecidableEq

/-- A dictionary appended to `issue_rows` inside the loop. -/
structure IssueRow where
  test_id : String
  req_id : String
  regulatory_tag : String
  compliance_score : Option ℚ
  compliance_result : ComplianceResult
deriving Repr, DecidableEq

/-- A row `make_issue_after_compliance` inserts into the Issue table. -/
structure IssueTableRow where
  test_id : String
  req_id : String
  regulatory_tag : String
  compliance_score : Option ℚ
  notes : String
deriving Repr, DecidableEq

/-- The threshold test `compliance_score < threshold_compliance_score`.
`compliance_result.get("compliance_score", 0)` reads the key that
`model_dump()` always includes, so a `None` score reaches the `<` and
raises `TypeError` — the `.get` default `0` never applies. -/
def scoreLtThreshold : Option ℚ → Except PyError Bool
  | none => .error .typeError
  | some s => .ok (decide (s < threshold_compliance_score))

/-- One iteration of the inner `for row in test_cases` loop: call the
collaborator (no try/except around it here), validate, append the
Compliance row, and append an issue row when the score is below the
threshold. -/
def processTestCase (rag : RagCall) (req_id tag : String)
    (tc : TestCaseRow) : Except PyError (ComplianceRow × Option IssueRow) :=
  match rag tc with
  | .error _ => .error .runtimeError
  | .ok raw =>
    match mkComplianceResult tc.test_id tag raw with
    | .error e => .error e
    | .ok cr =>
      match scoreLtThreshold cr.compliance_score with
      | .error e => .error e
      | .ok lt =>
        .ok (⟨tc.test_id, req_id, tag, cr⟩,
             if lt then
               some ⟨tc.test_id, req_id, tag, cr.compliance_score, cr⟩
             else none)

/-- The inner loop over the fetched test cases, accumulating
`rows_to_insert` and `issue_rows`; the first exception aborts the whole
function before any insert happens. -/
def processTestCases (rag : RagCall) (req_id tag : String) :
    List TestCaseRow → Except PyError (List ComplianceRow × List IssueRow)
  | [] => .ok ([], [])
  | tc :: rest =>
    match processTestCase rag req_id tag tc with
    | .error e => .error e
    | .ok (crow, iopt) =>
      match processTestCases rag req_id tag rest with
      | .error e => .error e
      | .ok (crows, irows) => .ok (crow :: crows, iopt.toList ++ irows)

/-- The summary note `make_issue_after_compliance` builds from the
recommendations and violations lists. -/
def summaryNote (cr : ComplianceResult) : String :=
  "Recommendations:\n- " ++ String.intercalate "\n- " cr.recommendations ++
  "\nViolations:\n- " ++ String.intercalate "\n- " cr.violations

/-- `make_issue_after_compliance`: turn the accumulated `issue_rows` into
Issue-table rows, preserving test id, requirement id, regulatory tag and
score, and attaching the derived note. -/
def make_issue_after_compliance (issue_rows : List IssueRow) :
    List IssueTableRow :=
  issue_rows.map fun r =>
    ⟨r.test_id, r.req_id, r.regulatory_tag, r.compliance_score,
     summaryNote r.compliance_result⟩

/-- `process_compliance_for_requirement(req_id, regulatory_tags)`.

The source's tag loop is `for tag in regulatory_tags[0]`: it indexes the
first tag (raising `IndexError` on an empty list) and then iterates over
that string's characters; the body immediately overwrites `tag` with the
constant `"fda"`, and an unconditional `break` ends the loop after its
first iteration.  So an empty first tag means zero passes, and any
non-empty first tag means exactly one pass under the tag `"fda"`.  On
success the function batch-inserts the Compliance rows and hands the
issue rows to `make_issue_after_compliance`; on an exception nothing is
inserted. -/
def process_compliance_for_requirement (rag : RagCall) (req_id : String)
    (regulatory_tags : List String) (test_cases : List TestCaseRow) :
    Except PyError (List ComplianceRow × List IssueTableRow) :=
  match regulatory_tags with
  | [] => .error .indexError
  | firstTag :: _ =>
    if firstTag = "" then .ok ([], [])
    else
      match processTestCases rag req_id "fda" test_cases with
      | .error e => .error e
      | .ok (crows, irows) => .ok (crows, make_issue_after_compliance irows)

/-!
## Inbound upsert — `cloud_functions/jira_to_bigquery/main.py`

`handle_issue_sync` extracts an `issue_data` dictionary from the webhook
issue payload and runs a BigQuery `MERGE` on the `issues` table keyed on
`issue_id` (the remote issue key): `WHEN MATCHED` it updates every column
except `created_date`; `WHEN NOT MATCHED` it inserts a full new row.
-/

/-- The nested `fields` object of a webhook issue, flattened to the
values `handle_issue_sync` actually reads (each may be absent). -/
structure JiraFields where
  issuetype_name : Option String
  summary : Option String
  description : Option String
  priority_name : Option String
  status_name : Option String
  assignee_displayName : Option String
  created : Option String
  updated : Option String
deriving Repr, DecidableEq

/-- A webhook issue: the remote key plus its fields. -/
structure JiraIssue where
  key : String
  fields : JiraFields
deriving Repr, DecidableEq

/-- A row of the warehouse `issues` table written by the sync. -/
structure SyncedIssueRow where
  issue_id : String
  issue_type : Option String
  title : Option String
  description : Option String
  priority : Option String
  status : Option String
  assignee : Option String
  created_date : Option String
  updated_date : Option String
  sync_timestamp : String
deriving Repr, DecidableEq

/-- `parse_jira_date`: `None` stays `None`; otherwise `dateutil.parse` is
attempted (modelled by the parameter `parseDate`, returning `none` when
parsing fails, in which case the source logs a warning and returns
`None`). -/
def parse_jira_date (parseDate : String → Option String) :
    Option String → Option String
  | none => none
  | some s => parseDate s

/-- The `issue_data` dictionary `handle_issue_sync` builds from the
webhook issue; `now` is `datetime.utcnow().isoformat()`. -/
def extractIssueData (parseDate : String → Option String) (now : String)
    (issue : JiraIssue) : SyncedIssueRow :=
  ⟨issue.key, issue.fields.issuetype_name, issue.fields.summary,
   issue.fields.description, issue.fields.priority_name,
   issue.fields.status_name, issue.fields.assignee_displayName,
   parse_jira_date parseDate issue.fields.created,
   parse_jira_date parseDate issue.fields.updated, now⟩

/-- The `MERGE` statement on the `issues` table: match on `issue_id`;
when matched, update every column of the matching rows except
`created_date`; when not matched, insert the full row. -/
def mergeIssue (table : List SyncedIssueRow) (ev : SyncedIssueRow) :
    List SyncedIssueRow :=
  if table.any fun r => r.issue_id == ev.issue_id then
    table.map fun r =>
      if r.issue_id == ev.issue_id then { ev with created_date := r.created_date }
      else r
  else table ++ [ev]

/-- `handle_issue_sync(issue)` acting on the warehouse `issues` table:
extract `issue_data` and MERGE it.  (The subsequent Pub/Sub publish does
not touch the table.) -/
def handle_issue_sync (parseDate : String → Option String) (now : String)
    (table : List SyncedIssueRow) (issue : JiraIssue) : List SyncedIssueRow :=
  mergeIssue table (extractIssueData parseDate now issue)

/-!
## Outbound lifecycle — `cloud_functions/bigquery_to_jira/main.py`

The remote tracker is modelled as a key set plus a fresh-key counter
(every key the tracker has ever assigned is below `nextKey`), together
with the set of issue links created so far.
-/

/-- The ALM tracker's state: existing issue keys, created links
(defect key, requirement key), and the counter from which creation
assigns fresh keys. -/
structure JiraState where
  issues : List Nat
  links : List (Nat × Nat)
  nextKey : Nat
deriving Repr, DecidableEq

/-- A warehouse `Requirement` row as `create_or_update_requirement_in_jira`
reads it: the local id and the nullable `alm_id` remote key. -/
structure RequirementRow where
  req_id : String
  req : String
  alm_id : Option Nat
deriving Repr, DecidableEq

/-- `create_or_update_requirement_in_jira(req_id)` (with the default
`batch_update=False`): if `alm_id` is set, PUT the update; a 404 resets
`alm_id` to null and falls through to creation; creation POSTs a new
issue, obtains the tracker-assigned key, and UPDATEs the local row's
`alm_id`.  Returns the remote key it ended on. -/
def create_or_update_requirement_in_jira (st : JiraState)
    (row : RequirementRow) : JiraState × RequirementRow × Option Nat :=
  match row.alm_id with
  | some k =>
    if k ∈ st.issues then
      (st, row, some k)
    else
      let newKey := st.nextKey
      ({ issues := newKey :: st.issues, links := st.links,
         nextKey := st.nextKey + 1 },
       { row with alm_id := some newKey }, some newKey)
  | none =>
    let newKey := st.nextKey
    ({ issues := newKey :: st.issues, links := st.links,
       nextKey := st.nextKey + 1 },
     { row with alm_id := some newKey }, some newKey)

/-- The joined issue details `get_issue_details` returns: the local issue
id, the nullable `jira_defect_key`, and the parent requirement's
`alm_id`. -/
structure IssueDetails where
  issue_id : String
  jira_defect_key : Option Nat
  alm_id : Option Nat
deriving Repr, DecidableEq

/-- `link_issues(defect_key, requirement_key)`: POST the issue link; any
failure (for the link to succeed both ends must exist in the tracker) is
caught and logged inside this function, leaving the tracker unchanged. -/
def link_issues (st : JiraState) (defect_key requirement_key : Nat) :
    JiraState :=
  if defect_key ∈ st.issues ∧ requirement_key ∈ st.issues then
    { st with links := (defect_key, requirement_key) :: st.links }
  else st

/-- `create_defect_in_jira(issue_details)`: POST a new Bug, obtain the
tracker-assigned key, then — if the parent requirement has an `alm_id` —
call `link_issues`; `link_issues` swallows its own failures, so the new
key is returned whether or not the link succeeded. -/
def create_defect_in_jira (st : JiraState) (details : IssueDetails) :
    JiraState × Option Nat :=
  let newKey := st.nextKey
  let st1 : JiraState :=
    { issues := newKey :: st.issues, links := st.links,
      nextKey := st.nextKey + 1 }
  match details.alm_id with
  | some reqKey => (link_issues st1 newKey reqKey, some newKey)
  | none => (st1, some newKey)

/-- `update_defect_in_jira(defect_key, issue_details)`.  If the GET check
returns 404 the function logs "A new one will be created" and returns
`False`.  If the defect does exist, the source then calls
`_build_jira_description_adf(issue_details, is_update=True)` — but that
helper takes a single parameter, so the call raises `TypeError`, which
the function's own `except Exception` swallows before any PUT is sent,
and it again returns `False`.  Either way the tracker is unchanged and
the result is `False`. -/
def update_defect_in_jira (st : JiraState) (defect_key : Nat) :
    JiraState × Bool :=
  if defect_key ∈ st.issues then (st, false)
  else (st, false)

/-- `update_issue_with_defect(issue_id, defect_key)`: persist the new
defect key on the local Issue row. -/
def update_issue_with_defect (details : IssueDetails) (defect_key : Nat) :
    IssueDetails :=
  { details with jira_defect_key := some defect_key }

/-- `create_alm_defect` after decoding the message and fetching the issue
details: if the row already carries a `jira_defect_key` it calls
`update_defect_in_jira` and **ignores** the returned Boolean (it never
falls through to creation); otherwise it creates a defect and, when a key
comes back, persists it on the local row. -/
def create_alm_defect (st : JiraState) (details : IssueDetails) :
    JiraState × IssueDetails :=
  match details.jira_defect_key with
  | some k =>
    let res := update_defect_in_jira st k
    (res.fst, details)
  | none =>
    match create_defect_in_jira st details with
    | (st1, some newKey) => (st1, update_issue_with_defect details newKey)
    | (st1, none) => (st1, details)

/-!
## Helper lemmas for the materializer
-/

/-- The issue row a successfully processed Compliance row gives rise to:
`some` exactly when the recorded score is below the threshold. -/
def issueOf (c : ComplianceRow) : Option IssueRow :=
  match c.compliance_result.compliance_score with
  | none => none
  | some s =>
    if s < threshold_compliance_score then
      some ⟨c.test_id, c.req_id, c.regulatory_tag, some s, c.compliance_result⟩
    else none



/-!
## Concrete inputs used by the claim witnesses and counterexamples
-/

/-- Concrete collaborator for the C1 witness: test "T1" scores exactly
0.7, every other test scores 0.6999. -/
def c1rag : RagCall := fun tc =>
  if tc.test_id = "T1" then
    .ok ⟨some (mkRat 7 10), some "Partial", [], [], []⟩
  else
    .ok ⟨some (mkRat 6999 10000), some "Partial", ["r1"], ["v1"], []⟩

def c1tcs : List TestCaseRow := [⟨"T1", "d1"⟩, ⟨"T2", "d2"⟩]

def c1cr1 : ComplianceResult := ⟨"T1", "fda", some (mkRat 7 10), "Partial", [], [], []⟩

def c1cr2 : ComplianceResult :=
  ⟨"T2", "fda", some (mkRat 6999 10000), "Partial", ["r1"], ["v1"], []⟩

def c1crows : List ComplianceRow :=
  [⟨"T1", "R1", "fda", c1cr1⟩, ⟨"T2", "R1", "fda", c1cr2⟩]

def c1irows : List IssueTableRow :=
  [⟨"T2", "R1", "fda", some (mkRat 6999 10000), summaryNote c1cr2⟩]

def c1crow2 : ComplianceRow := ⟨"T2", "R1", "fda", c1cr2⟩

def c9rag : RagCall := fun _ => .ok ⟨some (mkRat 1 2), some "Partial", ["r"], ["v"], []⟩

def c9tcs : List TestCaseRow := [⟨"T1", "d"⟩]

def c9cr : ComplianceResult := ⟨"T1", "fda", some (mkRat 1 2), "Partial", ["r"], ["v"], []⟩

def c9crows : List ComplianceRow := [⟨"T1", "R9", "fda", c9cr⟩]

def c9irows : List IssueTableRow := [⟨"T1", "R9", "fda", some (mkRat 1 2), summaryNote c9cr⟩]

def c5rag : RagCall := fun tc =>
  if tc.test_id = "T2" then .error ()
  else .ok ⟨some (mkRat 1 2), some "Partial", ["r"], ["v"], []⟩

def c5tcs : List TestCaseRow :=
  [⟨"T1", "d1"⟩, ⟨"T2", "d2"⟩, ⟨"T3", "d3"⟩, ⟨"T4", "d4"⟩, ⟨"T5", "d5"⟩]

def c6rag : RagCall := fun _ => .ok ⟨some (mkRat 9 10), some "Compliant", [], [], []⟩

def c6tc : TestCaseRow := ⟨"T1", "d"⟩

def c7rag : RagCall := fun _ => .ok ⟨none, some "Unknown", [], [], []⟩

def c2issue : JiraIssue :=
  ⟨"HEAL-7", ⟨some "Bug", some "a title", some "a description", some "High",
    some "Open", none, some "2023-12-01T10:30:00", some "2023-12-02T09:00:00"⟩⟩


theorem issueOf_eq_some {c : ComplianceRow} {i : IssueRow}
    (h : issueOf c = some i) :
    i.test_id = c.test_id ∧
    ∃ s : ℚ, c.compliance_result.compliance_score = some s ∧
      s < threshold_compliance_score := by
  cases hsc : c.compliance_result.compliance_score with
  | none => simp [issueOf, hsc] at h
  | some s =>
    by_cases hlt : s < threshold_compliance_score
    · simp only [issueOf, hsc, if_pos hlt, Option.some.injEq] at h
      subst h
      exact ⟨rfl, s, rfl, hlt⟩
    · simp [issueOf, hsc, hlt] at h

theorem processTestCase_ok_shape {rag : RagCall} {req_id tag : String}
    {tc : TestCaseRow} {c : ComplianceRow} {iopt : Option IssueRow}
    (h : processTestCase rag req_id tag tc = .ok (c, iopt)) :
    c.test_id = tc.test_id ∧ c.req_id = req_id ∧ c.regulatory_tag = tag ∧
    ∃ s : ℚ, c.compliance_result.compliance_score = some s ∧
      iopt = issueOf c := by
  unfold processTestCase at h
  cases hrag : rag tc with
  | error e => simp [hrag] at h
  | ok raw =>
    simp only [hrag] at h
    cases hmk : mkComplianceResult tc.test_id tag raw with
    | error e => simp [hmk] at h
    | ok cr =>
      simp only [hmk] at h
      cases hscore : cr.compliance_score with
      | none => simp [scoreLtThreshold, hscore] at h
      | some s =>
        simp only [scoreLtThreshold, hscore, decide_eq_true_eq,
          Except.ok.injEq, Prod.mk.injEq] at h
        obtain ⟨hc, hi⟩ := h
        subst hc
        refine ⟨rfl, rfl, rfl, s, hscore, ?_⟩
        by_cases hlt : s < threshold_compliance_score
        · rw [if_pos hlt] at hi
          simp [← hi, issueOf, hscore, hlt]
        · rw [if_neg hlt] at hi
          simp [← hi, issueOf, hscore, hlt]

theorem processTestCases_ok_spec {rag : RagCall} {req_id tag : String}
    {tcs : List TestCaseRow} {crows : List ComplianceRow}
    {irows : List IssueRow}
    (h : processTestCases rag req_id tag tcs = .ok (crows, irows)) :
    crows.map ComplianceRow.test_id = tcs.map TestCaseRow.test_id ∧
    (∀ c ∈ crows, c.req_id = req_id ∧ c.regulatory_tag = tag ∧
      ∃ s : ℚ, c.compliance_result.compliance_score = some s) ∧
    irows = crows.filterMap issueOf := by
  induction tcs generalizing crows irows with
  | nil =>
    unfold processTestCases at h
    simp only [Except.ok.injEq, Prod.mk.injEq] at h
    obtain ⟨h1, h2⟩ := h
    subst h1; subst h2
    simp
  | cons tc rest ih =>
    unfold processTestCases at h
    cases h1 : processTestCase rag req_id tag tc with
    | error e => simp [h1] at h
    | ok pr =>
      obtain ⟨crow, iopt⟩ := pr
      simp only [h1] at h
      cases h2 : processTestCases rag req_id tag rest with
      | error e => simp [h2] at h
      | ok pr2 =>
        obtain ⟨crows', irows'⟩ := pr2
        simp only [h2, Except.ok.injEq, Prod.mk.injEq] at h
        obtain ⟨hc, hi⟩ := h
        subst hc; subst hi
        obtain ⟨ht, hreq, htag, s, hs, hio⟩ := processTestCase_ok_shape h1
        obtain ⟨ih1, ih2, ih3⟩ := ih h2
        refine ⟨?_, ?_, ?_⟩
        · simp [ih1, ht]
        · intro c hc
          rcases List.mem_cons.mp hc with rfl | hc'
          · exact ⟨hreq, htag, s, hs⟩
          · exact ih2 c hc'
        · rw [List.filterMap_cons, ← hio, ← ih3]
          cases iopt <;> simp

/-!
## Claims about the Compliance-to-Defect Materializer
-/

/-- C10: for every `req_id`, calling the materializer with an empty
`regulatory_tags` list raises an indexing error (from
`regulatory_tags[0]`) before any Compliance or Issue row is written, so
the warehouse Compliance and Issue tables are left unchanged (an error
result aborts before the batch inserts, so it carries no rows). -/
theorem c10_empty_tags_index_error (rag : RagCall) (req_id : String)
    (test_cases : List TestCaseRow) :
    process_compliance_for_requirement rag req_id [] test_cases =
      .error .indexError := rfl

/-- C9: for every call to the materializer with a non-empty
`regulatory_tags` list, every Compliance row and every Issue row it
writes carries the constant regulatory tag "fda", regardless of which
tags were passed in. -/
theorem c9_rows_carry_fda_tag (rag : RagCall) (req_id : String)
    (regulatory_tags : List String) (tcs : List TestCaseRow)
    (crows : List ComplianceRow) (irows : List IssueTableRow)
    (hne : regulatory_tags ≠ [])
    (hok : process_compliance_for_requirement rag req_id regulatory_tags tcs
      = .ok (crows, irows)) :
    (∀ c ∈ crows, c.regulatory_tag = "fda") ∧
    (∀ i ∈ irows, i.regulatory_tag = "fda") := by
  match regulatory_tags, hne with
  | firstTag :: rest, _ =>
    unfold process_compliance_for_requirement at hok
    by_cases hft : firstTag = ""
    · simp only [if_pos hft, Except.ok.injEq, Prod.mk.injEq] at hok
      obtain ⟨h1, h2⟩ := hok
      subst h1; subst h2
      simp
    · simp only [if_neg hft] at hok
      cases hrun : processTestCases rag req_id "fda" tcs with
      | error e => simp [hrun] at hok
      | ok pr =>
        obtain ⟨crows0, irows0⟩ := pr
        simp only [hrun, Except.ok.injEq, Prod.mk.injEq] at hok
        obtain ⟨h1, h2⟩ := hok
        subst h1; subst h2
        obtain ⟨_, hmem, hiss⟩ := processTestCases_ok_spec hrun
        refine ⟨fun c hc => (hmem c hc).2.1, ?_⟩
        intro i hi
        simp only [make_issue_after_compliance, List.mem_map] at hi
        obtain ⟨r, hr, rfl⟩ := hi
        rw [hiss] at hr
        obtain ⟨c', hc', hio⟩ := List.mem_filterMap.mp hr
        have htag := (hmem c' hc').2.1
        unfold issueOf at hio
        cases hsc : c'.compliance_result.compliance_score with
        | none => simp [hsc] at hio
        | some s =>
          by_cases hlt : s < threshold_compliance_score
          · simp only [hsc, if_pos hlt, Option.some.injEq] at hio
            subst hio
            exact htag
          · simp [hsc, hlt] at hio

/-- C1: in every materialization run that completes, an Issue row is
written for a test case's (test case, tag) pair iff the compliance score
recorded for it is strictly below `threshold_compliance_score = 0.7`
(so a score of exactly 0.7 produces no Issue row, while 0.6999 does —
see the witness). -/
theorem c1_issue_iff_below_threshold (rag : RagCall)
    (req_id firstTag : String) (rest : List String)
    (tcs : List TestCaseRow) (crows : List ComplianceRow)
    (irows : List IssueTableRow)
    (hok : process_compliance_for_requirement rag req_id
      (firstTag :: rest) tcs = .ok (crows, irows))
    (hnodup : (tcs.map TestCaseRow.test_id).Nodup) :
    ∀ c ∈ crows, ∃ s : ℚ, c.compliance_result.compliance_score = some s ∧
      ((∃ i ∈ irows, i.test_id = c.test_id) ↔
        s < threshold_compliance_score) := by
  unfold process_compliance_for_requirement at hok
  by_cases hft : firstTag = ""
  · simp only [if_pos hft, Except.ok.injEq, Prod.mk.injEq] at hok
    obtain ⟨h1, h2⟩ := hok
    subst h1; subst h2
    simp
  · simp only [if_neg hft] at hok
    cases hrun : processTestCases rag req_id "fda" tcs with
    | error e => simp [hrun] at hok
    | ok pr =>
      obtain ⟨crows0, irows0⟩ := pr
      simp only [hrun, Except.ok.injEq, Prod.mk.injEq] at hok
      obtain ⟨h1, h2⟩ := hok
      subst h1; subst h2
      obtain ⟨hids, hmem, hiss⟩ := processTestCases_ok_spec hrun
      have hnodup' : (crows0.map ComplianceRow.test_id).Nodup := by
        rw [hids]; exact hnodup
      intro c hc
      obtain ⟨_, _, s, hs⟩ := hmem c hc
      refine ⟨s, hs, ?_, ?_⟩
      · rintro ⟨i, hi, hid⟩
        simp only [make_issue_after_compliance, List.mem_map] at hi
        obtain ⟨r, hr, rfl⟩ := hi
        rw [hiss] at hr
        obtain ⟨c', hc', hio⟩ := List.mem_filterMap.mp hr
        obtain ⟨hrid, s', hs', hlt'⟩ := issueOf_eq_some hio
        have hceq : c' = c := by
          refine List.inj_on_of_nodup_map hnodup' hc' hc ?_
          rw [← hrid]
          exact hid
        subst hceq
        rw [hs] at hs'
        obtain rfl : s' = s := (Option.some.inj hs').symm
        exact hlt'
      · intro hlt
        have hio : issueOf c =
            some ⟨c.test_id, c.req_id, c.regulatory_tag, some s,
              c.compliance_result⟩ := by
          unfold issueOf
          simp [hs, hlt]
        refine ⟨⟨c.test_id, c.req_id, c.regulatory_tag, some s,
          summaryNote c.compliance_result⟩, ?_, rfl⟩
        simp only [make_issue_after_compliance, List.mem_map]
        refine ⟨⟨c.test_id, c.req_id, c.regulatory_tag, some s,
          c.compliance_result⟩, ?_, rfl⟩
        rw [hiss]
        exact List.mem_filterMap.mpr ⟨c, hc, hio⟩

/-- Witness for C1 at the boundary run: test "T1" scored exactly 0.70 and
got no Issue row, test "T2" scored 0.6999 and did (`c1irows` holds exactly
the "T2" row). -/
theorem c1_issue_iff_below_threshold_witness :
    ∃ s : ℚ, c1crow2.compliance_result.compliance_score = some s ∧
      ((∃ i ∈ c1irows, i.test_id = c1crow2.test_id) ↔
        s < threshold_compliance_score) :=
  c1_issue_iff_below_threshold c1rag "R1" "HIPAA" [] c1tcs c1crows c1irows
    (by decide) (by decide) c1crow2 (by decide)

/-- Witness for C9: a run invoked with tags `["iso", "HIPAA"]` writes its
Compliance row and its Issue row tagged "fda". -/
theorem c9_rows_carry_fda_tag_witness :
    (ComplianceRow.mk "T1" "R9" "fda" c9cr).regulatory_tag = "fda" ∧
    (IssueTableRow.mk "T1" "R9" "fda" (some (mkRat 1 2)) (summaryNote c9cr)).regulatory_tag
      = "fda" := by
  have h := c9_rows_carry_fda_tag c9rag "R9" ["iso", "HIPAA"] c9tcs c9crows
    c9irows (by decide) (by decide)
  exact ⟨h.1 _ (by simp [c9crows]), h.2 _ (by simp [c9irows])⟩

/-- If the collaborator raises for some test case of the batch, the inner
loop ends in an exception (whichever exception strikes first). -/
theorem processTestCases_error_of_failure {rag : RagCall}
    {req_id tag : String} {tcs : List TestCaseRow} {tc : TestCaseRow}
    (hmem : tc ∈ tcs) (hfail : rag tc = .error ()) :
    ∃ e, processTestCases rag req_id tag tcs = .error e := by
  induction tcs with
  | nil => cases hmem
  | cons hd rest ih =>
    rcases List.mem_cons.mp hmem with rfl | hmem'
    · refine ⟨.runtimeError, ?_⟩
      unfold processTestCases processTestCase
      simp [hfail]
    · cases h1 : processTestCase rag req_id tag hd with
      | error e =>
        refine ⟨e, ?_⟩
        unfold processTestCases
        simp [h1]
      | ok pr =>
        obtain ⟨crow, iopt⟩ := pr
        obtain ⟨e, he⟩ := ih hmem'
        refine ⟨e, ?_⟩
        unfold processTestCases
        simp [h1, he]

/-- C5 (amended): a compliance-check collaborator failure on any test
case of the batch is NOT caught: the `RuntimeError` raised by
`run_rag_compliance` propagates out of the materializer (possibly after
an earlier test case already raised something else), the run ends in an
exception, and — because the batch inserts only happen after the loop —
no Compliance row and no Issue row is written for ANY test case of the
run. -/
theorem c5_collaborator_failure_aborts (rag : RagCall)
    (req_id firstTag : String) (rest : List String)
    (tcs : List TestCaseRow) (tc : TestCaseRow)
    (hft : firstTag ≠ "") (hmem : tc ∈ tcs) (hfail : rag tc = .error ()) :
    ∃ e, process_compliance_for_requirement rag req_id (firstTag :: rest)
      tcs = .error e := by
  obtain ⟨e, he⟩ :=
    @processTestCases_error_of_failure rag req_id "fda" tcs tc hmem hfail
  refine ⟨e, ?_⟩
  unfold process_compliance_for_requirement
  simp [if_neg hft, he]

/-- Counterexample to C5 as stated: the collaborator raises for test case
"T2" (#2 of 5); the run does not skip it but ends in `RuntimeError`, so
no Compliance rows are recorded for "T1", "T3", "T4", "T5" (an error
result aborts before the batch inserts) and no Issue rows are created,
although every surviving score (0.5) is below the threshold. -/
theorem c5_counterexample :
    process_compliance_for_requirement c5rag "R1" ["HIPAA"] c5tcs =
      .error .runtimeError := by decide

/-- Witness for the amended C5 at the same concrete run. -/
theorem c5_collaborator_failure_aborts_witness :
    ∃ e, process_compliance_for_requirement c5rag "R1" ["HIPAA"] c5tcs =
      .error e :=
  c5_collaborator_failure_aborts c5rag "R1" "HIPAA" [] c5tcs ⟨"T2", "d2"⟩
    (by decide) (by decide) (by decide)

/-- C6 (amended): the materializer performs exactly one pass: with a
non-empty first tag it processes every fetched test case once — one
Compliance row per test case, in order — under the constant tag "fda"
(the loop variable is overwritten before any compliance check), and the
result does not depend on the tag values or on the remaining tags at
all (the loop body `break`s after the first character of the first
tag). -/
theorem process_compliance_cons (rag : RagCall) (req_id firstTag : String)
    (rest : List String) (tcs : List TestCaseRow) :
    process_compliance_for_requirement rag req_id (firstTag :: rest) tcs =
      if firstTag = "" then .ok ([], [])
      else
        match processTestCases rag req_id "fda" tcs with
        | .error e => .error e
        | .ok (crows, irows) =>
          .ok (crows, make_issue_after_compliance irows) := rfl

theorem c6_single_pass_fda (rag : RagCall) (req_id firstTag : String)
    (rest : List String) (tcs : List TestCaseRow) (hft : firstTag ≠ "") :
    process_compliance_for_requirement rag req_id (firstTag :: rest) tcs =
      process_compliance_for_requirement rag req_id ["x"] tcs ∧
    ∀ crows irows,
      process_compliance_for_requirement rag req_id (firstTag :: rest) tcs
        = .ok (crows, irows) →
      crows.map ComplianceRow.test_id = tcs.map TestCaseRow.test_id ∧
      ∀ c ∈ crows, c.regulatory_tag = "fda" := by
  constructor
  · simp only [process_compliance_cons]
    rw [if_neg hft, if_neg (by decide : ¬("x" : String) = "")]
  · intro crows irows hok
    rw [process_compliance_cons, if_neg hft] at hok
    cases hrun : processTestCases rag req_id "fda" tcs with
    | error e => simp [hrun] at hok
    | ok pr =>
      obtain ⟨crows0, irows0⟩ := pr
      simp only [hrun, Except.ok.injEq, Prod.mk.injEq] at hok
      obtain ⟨h1, h2⟩ := hok
      subst h1; subst h2
      obtain ⟨hids, hmem, _⟩ := processTestCases_ok_spec hrun
      exact ⟨hids, fun c hc => (hmem c hc).2.1⟩

/-- Counterexample to C6 as stated: invoked with the two tags "HIPAA" and
"GDPR" and one test case, the run records exactly ONE compliance result,
tagged "fda" — not one per (test case, tag) pair under each input tag. -/
theorem c6_counterexample :
    process_compliance_for_requirement c6rag "R1" ["HIPAA", "GDPR"] [c6tc]
      = .ok ([⟨"T1", "R1", "fda",
          ⟨"T1", "fda", some (mkRat 9 10), "Compliant", [], [], []⟩⟩], []) ∧
    "fda" ∉ ["HIPAA", "GDPR"] := by decide

/-- Witness for the amended C6 at a concrete two-tag run. -/
theorem c6_single_pass_fda_witness :
    process_compliance_for_requirement c6rag "R1" ["HIPAA", "GDPR"] [c6tc] =
      process_compliance_for_requirement c6rag "R1" ["x"] [c6tc] ∧
    ∀ crows irows,
      process_compliance_for_requirement c6rag "R1" ["HIPAA", "GDPR"] [c6tc]
        = .ok (crows, irows) →
      crows.map ComplianceRow.test_id = [c6tc].map TestCaseRow.test_id ∧
      ∀ c ∈ crows, c.regulatory_tag = "fda" :=
  c6_single_pass_fda c6rag "R1" "HIPAA" ["GDPR"] [c6tc] (by decide)

/-- C7: the RAG collaborator returns a `None` compliance score for the
only test case.  The source prints its warning but does NOT normalize the
score to 0.0 — `model_dump()` always includes the `compliance_score` key,
so the `.get(..., 0)` default never fires and the `None` reaches the
comparison `None < 0.7`, which raises `TypeError` and aborts the batch
with nothing written. -/
theorem c7_none_score_raises_type_error :
    process_compliance_for_requirement c7rag "R1" ["HIPAA"] [⟨"T1", "d"⟩] =
      .error .typeError := by decide

/-!
## Claims about the inbound upsert and the outbound lifecycle
-/

/-- C2: applying the same remote-originated issue event twice in
sequence (the second delivery carrying a possibly different sync
timestamp `t2`) leaves exactly one row for the event's remote issue key
in the `issues` table — the table is extended by exactly one row whose
fields all equal the event's extracted fields, the second application
having updated the row the first inserted. -/
theorem c2_idempotent_upsert (parseDate : String → Option String)
    (t1 t2 : String) (table : List SyncedIssueRow) (issue : JiraIssue)
    (hfresh : ∀ r ∈ table, r.issue_id ≠ issue.key) :
    handle_issue_sync parseDate t2
        (handle_issue_sync parseDate t1 table issue) issue =
      table ++ [extractIssueData parseDate t2 issue] ∧
    ((handle_issue_sync parseDate t2
        (handle_issue_sync parseDate t1 table issue) issue).filter
      (fun r => r.issue_id == issue.key)).length = 1 := by
  have hnot : ¬(table.any
      (fun r => r.issue_id == issue.key) = true) := by
    simp only [List.any_eq_true, beq_iff_eq, not_exists, not_and]
    exact hfresh
  have hid1 : (extractIssueData parseDate t1 issue).issue_id = issue.key := rfl
  have hid2 : (extractIssueData parseDate t2 issue).issue_id = issue.key := rfl
  have hstep1 : handle_issue_sync parseDate t1 table issue =
      table ++ [extractIssueData parseDate t1 issue] := by
    unfold handle_issue_sync mergeIssue
    simp only [hid1]
    rw [if_neg hnot]
  have hstep2 : handle_issue_sync parseDate t2
      (table ++ [extractIssueData parseDate t1 issue]) issue =
      table ++ [extractIssueData parseDate t2 issue] := by
    unfold handle_issue_sync mergeIssue
    simp only [hid2]
    rw [if_pos ?_]
    · rw [List.map_append]
      congr 1
      · refine (List.map_congr_left (g := id) ?_).trans (List.map_id table)
        intro r hr
        have hne : ¬((r.issue_id == issue.key) = true) := by
          simp only [beq_iff_eq]
          exact hfresh r hr
        simp only [id, if_neg hne]
      · simp [extractIssueData, hid1]
    · simp [List.any_append, hid1]
  rw [hstep1, hstep2]
  refine ⟨rfl, ?_⟩
  rw [List.filter_append]
  have hnil : table.filter (fun r => r.issue_id == issue.key) = [] := by
    rw [List.filter_eq_nil_iff]
    simpa [beq_iff_eq] using hfresh
  rw [hnil]
  simp [hid2]

/-- Witness for C2: a double delivery of the same webhook event for key
"HEAL-7" against an empty table yields the single extracted row. -/
theorem c2_idempotent_upsert_witness :
    handle_issue_sync some "s2"
        (handle_issue_sync some "s1" [] c2issue) c2issue =
      [] ++ [extractIssueData some "s2" c2issue] ∧
    ((handle_issue_sync some "s2"
        (handle_issue_sync some "s1" [] c2issue) c2issue).filter
      (fun r => r.issue_id == c2issue.key)).length = 1 :=
  c2_idempotent_upsert some "s1" "s2" [] c2issue (by simp)

/-- C3: a Requirement whose stored remote key is stale (the tracker
returns not-found for the update on it) is repaired by
`create_or_update_requirement_in_jira`: a new remote record is created
under a freshly assigned key, the local row's `alm_id` is updated to that
key, and — since the tracker only ever assigns keys below `nextKey` —
the new key is distinct from the stale one. -/
theorem c3_stale_requirement_repaired (st : JiraState)
    (row : RequirementRow) (k : Nat) (halm : row.alm_id = some k)
    (hstale : k ∉ st.issues) (hassigned : k < st.nextKey) :
    create_or_update_requirement_in_jira st row =
      ({ issues := st.nextKey :: st.issues, links := st.links,
         nextKey := st.nextKey + 1 },
       { row with alm_id := some st.nextKey }, some st.nextKey) ∧
    st.nextKey ≠ k := by
  refine ⟨?_, ne_of_gt hassigned⟩
  simp only [create_or_update_requirement_in_jira, halm]
  rw [if_neg hstale]

/-- Witness for C3: stale key 3 on requirement "R1", tracker holding no
issues with counter 5; the repair assigns 5 ≠ 3 and stores it. -/
theorem c3_stale_requirement_repaired_witness :
    create_or_update_requirement_in_jira ⟨[], [], 5⟩ ⟨"R1", "req text", some 3⟩
      = (⟨[5], [], 6⟩, ⟨"R1", "req text", some 5⟩, some 5) ∧ (5 : Nat) ≠ 3 :=
  c3_stale_requirement_repaired ⟨[], [], 5⟩ ⟨"R1", "req text", some 3⟩ 3 rfl
    (by simp) (by decide)

/-- C4: failing input for the Issue-side stale repair.  The Issue row
"I1" stores the stale defect key 3 (absent from the tracker);
`update_defect_in_jira` returns `False` — which its own comment says
"will signal the calling logic to create a new defect" — but
`create_alm_defect` ignores the returned value, so no new defect is
created, the tracker is untouched, and the local row keeps the stale
key, contrary to the repair state machine the Requirement side runs. -/
theorem c4_stale_defect_key_not_repaired :
    create_alm_defect ⟨[], [], 5⟩ ⟨"I1", some 3, some 2⟩ =
      (⟨[], [], 5⟩, ⟨"I1", some 3, some 2⟩) ∧
    update_defect_in_jira ⟨[], [], 5⟩ 3 = (⟨[], [], 5⟩, false) := by decide

/-- C8: when the defect create succeeds but the follow-up create-link
call fails (here: the parent requirement's remote key does not exist in
the tracker), the failure is swallowed inside `link_issues` (no link is
added), `create_defect_in_jira` still returns the newly assigned defect
key, and `create_alm_defect` still persists that key on the local Issue
row. -/
theorem c8_link_failure_key_persisted (st : JiraState)
    (details : IssueDetails) (reqKey : Nat)
    (hkey : details.jira_defect_key = none)
    (halm : details.alm_id = some reqKey) (hstale : reqKey ∉ st.issues)
    (hne : reqKey ≠ st.nextKey) :
    create_defect_in_jira st details =
      ({ issues := st.nextKey :: st.issues, links := st.links,
         nextKey := st.nextKey + 1 }, some st.nextKey) ∧
    create_alm_defect st details =
      ({ issues := st.nextKey :: st.issues, links := st.links,
         nextKey := st.nextKey + 1 },
       { details with jira_defect_key := some st.nextKey }) := by
  have hcreate : create_defect_in_jira st details =
      ({ issues := st.nextKey :: st.issues, links := st.links,
         nextKey := st.nextKey + 1 }, some st.nextKey) := by
    simp only [create_defect_in_jira, halm, link_issues]
    rw [if_neg]
    rintro ⟨-, hmem⟩
    rcases List.mem_cons.mp hmem with h | h
    · exact hne h
    · exact hstale h
  refine ⟨hcreate, ?_⟩
  simp only [create_alm_defect, hkey, hcreate, update_issue_with_defect]

/-- Witness for C8: defect created under fresh key 4, link to the absent
requirement key 9 fails silently, and "I1" is updated with key 4. -/
theorem c8_link_failure_key_persisted_witness :
    create_defect_in_jira ⟨[], [], 4⟩ ⟨"I1", none, some 9⟩ =
      (⟨[4], [], 5⟩, some 4) ∧
    create_alm_defect ⟨[], [], 4⟩ ⟨"I1", none, some 9⟩ =
      (⟨[4], [], 5⟩, ⟨"I1", some 4, some 9⟩) :=
  c8_link_failure_key_persisted ⟨[], [], 4⟩ ⟨"I1", none, some 9⟩ 9 rfl rfl
    (by simp) (by decide)
